import Mathlib

/-!
Shallow embedding of the Nion orchestration engine (src/app of wrong24/aiNions):
the orchestration state model, the LangGraph stage functions and the linear
executor (`graph.py`), the conditional router, the retry policy and tiered
cache decorators and the evaluator (`agents.py`).  Python strings, ints and
floats are modelled as `String`, `Int`/`Nat` and `ℚ`; Python exceptions as
explicit `Except`/error values; Python dicts as association lists that keep
insertion order, matching CPython semantics.
-/

namespace Nion

/-- Substring test on character lists: `hasSub pat l` is true iff `pat` occurs
as a contiguous run inside `l`.  Models the Python string test `pat in s`. -/
def hasSub : List Char → List Char → Bool
  | pat, [] => pat.isEmpty
  | pat, c :: rest => pat.isPrefixOf (c :: rest) || hasSub pat rest

/-- Python `pat in s` for strings. -/
def containsSubstr (s pat : String) : Bool :=
  hasSub pat.data s.data

/-- Lowering of one ASCII character, as Python `str.lower` does it. -/
def charLower (c : Char) : Char :=
  if 65 ≤ c.toNat ∧ c.toNat ≤ 90 then Char.ofNat (c.toNat + 32) else c

/-- Model of Python `str.lower` (ASCII fragment, which is all the source uses). -/
def strLower (s : String) : String := ⟨s.data.map charLower⟩

/-! ## Retry policy (`agents.py`, `retry_on_429`) -/

/-- The exceptions the retry wrapper distinguishes: the designated rate-limit
error type (`google.api_core.exceptions.ResourceExhausted`) or a generic
exception carrying a message string. -/
inductive PyExc where
  | resourceExhausted
  | generic (msg : String)
deriving DecidableEq, Repr

/-- Classification done by the two `except` arms of `retry_on_429`: the
designated rate-limit type, or a generic exception whose message contains
the marker `"429"`. -/
def isRateLimit : PyExc → Bool
  | .resourceExhausted => true
  | .generic msg => containsSubstr msg "429"

/-- Outcome of a retry-wrapped call: a returned value, an exception re-raised
to the caller, or the terminal `Max retries exceeded` exception naming the
wrapped function. -/
inductive RetryOutcome (α : Type) where
  | ok (v : α)
  | raised (e : PyExc)
  | exhausted (fname : String)
deriving DecidableEq, Repr

/-- Instrumented result of a retry-wrapped call: the outcome, how many times
the wrapped operation was invoked, and the list of sleep durations (seconds)
performed, in order. -/
structure RetryTrace (α : Type) where
  outcome : RetryOutcome α
  invocations : Nat
  sleeps : List Nat
deriving DecidableEq, Repr

/-- One turn of the `while retries < max_retries` loop of `retry_on_429`.
`op k` is what the wrapped operation does on its `k`-th invocation,
`delay` the current backoff delay, `remaining` is `max_retries - retries`. -/
def retryLoop (op : Nat → Except PyExc α) (fname : String) :
    Nat → Nat → Nat → RetryTrace α
  | _, _, 0 => ⟨.exhausted fname, 0, []⟩
  | attempt, delay, remaining + 1 =>
    match op attempt with
    | .ok v => ⟨.ok v, 1, []⟩
    | .error e =>
      if isRateLimit e then
        let rest := retryLoop op fname (attempt + 1) (delay * 2) remaining
        ⟨rest.outcome, rest.invocations + 1, delay :: rest.sleeps⟩
      else
        ⟨.raised e, 1, []⟩

/-- `retry_on_429(max_retries, initial_delay)` applied to an operation:
starts at attempt 0 with the initial delay and the full retry budget. -/
def retry_on_429 (op : Nat → Except PyExc α) (fname : String)
    (maxRetries initialDelay : Nat) : RetryTrace α :=
  retryLoop op fname 0 initialDelay maxRetries

/-- Test that invocation `k` of the wrapped operation raised a rate-limit
classified exception. -/
def rateLimitFailure (r : Except PyExc α) : Bool :=
  match r with
  | .ok _ => false
  | .error e => isRateLimit e

/-! ## Tiered cache (`agents.py`, `cache_result` / `get_redis_client` /
`_memory_cache`)

Both tiers are modelled as association lists from key to
value-with-absolute-expiry.  The primary (Redis) tier holds entries written
with `setex`: Redis serves a key only while the current time is before its
expiry.  The fallback `_memory_cache` tier stores `(result, time.time() + ttl)`
and the wrapper itself checks `time.time() < expiry`.  Wall-clock time is a
`Nat` field of the world. -/

/-- Association-list lookup (first binding wins, like a Python dict). -/
def alookup (l : List (String × α)) (k : String) : Option α :=
  match l with
  | [] => none
  | (k₁, v) :: rest => if k₁ = k then some v else alookup rest k

/-- Association-list store: overwrite the existing binding in place, or
append a fresh one — Python `d[k] = v` insertion-order semantics. -/
def astore (l : List (String × α)) (k : String) (v : α) : List (String × α) :=
  match l with
  | [] => [(k, v)]
  | (k₁, v₁) :: rest =>
    if k₁ = k then (k₁, v) :: rest else (k₁, v₁) :: astore rest k v

/-- The process-wide world the cache wrapper lives in: whether
`get_redis_client()` currently succeeds, the two tiers, and the clock. -/
structure CacheWorld (α : Type) where
  primaryAvail : Bool
  primary : List (String × α × Nat)
  memory : List (String × α × Nat)
  now : Nat
deriving Repr

/-- What the primary (Redis) tier returns for `redis_client.get(key)`:
an entry is served only while unexpired (Redis expires `setex` keys
server-side). -/
def primaryGet (w : CacheWorld α) (key : String) : Option α :=
  if w.primaryAvail then
    match alookup w.primary key with
    | some (v, exp) => if w.now < exp then some v else none
    | none => none
  else none

/-- What the fallback tier returns: the wrapper checks
`cache_key in _memory_cache` and then `time.time() < expiry`; an expired
entry falls through to recomputation. -/
def memoryGet (w : CacheWorld α) (key : String) : Option α :=
  match alookup w.memory key with
  | some (v, exp) => if w.now < exp then some v else none
  | none => none

/-- The body of the `cache_result(ttl)` wrapper for one call: try the primary
tier, then the fallback tier, else invoke the computation `f` and write the
result through to both tiers with absolute expiry `now + ttl`.  Returns the
value, the updated world, and whether `f` was invoked. -/
def cache_result (w : CacheWorld α) (key : String) (ttl : Nat) (f : α) :
    α × CacheWorld α × Bool :=
  match primaryGet w key with
  | some v => (v, w, false)
  | none =>
    match memoryGet w key with
    | some v => (v, w, false)
    | none =>
      let result := f
      let w₁ :=
        { w with
          primary :=
            if w.primaryAvail then astore w.primary key (result, w.now + ttl)
            else w.primary,
          memory := astore w.memory key (result, w.now + ttl) }
      (result, w₁, true)

/-! ## Evaluator (`agents.py`, `CrossCuttingAgents.evaluate_output`) -/

/-- The dict-shaped view of one entry of the results map, holding exactly the
fields `evaluate_output` reads: `r.get("status")` and the optional
`extraction_confidence` / `generation_confidence` keys of
the output dict.  Confidence scores are modelled as exact rationals. -/
structure ResultDict where
  status : Option String
  extraction_confidence : Option ℚ
  generation_confidence : Option ℚ
deriving DecidableEq, Repr

/-- The confidence contribution of one result:
`if "extraction_confidence" in output: ... elif "generation_confidence"`. -/
def confContribution (r : ResultDict) : Option ℚ :=
  match r.extraction_confidence with
  | some c => some c
  | none => r.generation_confidence

/-- The evaluation dict built by `evaluate_output`. -/
structure Evaluation where
  total_tasks : Nat
  successful_tasks : Nat
  failed_tasks : Nat
  average_confidence : ℚ
  overall_status : String
  recommendations : List String
deriving DecidableEq, Repr

/-- `CrossCuttingAgents.evaluate_output` on a results map whose values are
dict-shaped (the only shape on which the Python body runs to completion,
see `evaluateOutputPy` below). -/
def evaluate_output (rs : List (String × ResultDict)) : Evaluation :=
  let vals := rs.map (fun p => p.2)
  let confs := vals.filterMap confContribution
  let failed := (vals.filter (fun r => r.status = some "FAILED")).length
  let avg : ℚ :=
    if confs.length > 0 then confs.sum / (confs.length : ℚ) else 0
  { total_tasks := rs.length
    successful_tasks := (vals.filter (fun r => r.status = some "SUCCESS")).length
    failed_tasks := failed
    average_confidence := avg
    overall_status := if failed > 0 then "PARTIAL" else "COMPLETED"
    recommendations :=
      (if failed > 0 then ["Review failed tasks for issues"] else []) ++
        (if avg < 3/4 then ["Consider re-running with higher model precision"]
         else []) }

/-! ## Entity types (`schemas.py`) -/

/-- `schemas.ActionItem`. -/
structure ActionItem where
  id : String
  title : String
  owner : Option String
  priority : String
  due_date : Option String
  status : String
deriving DecidableEq, Repr

/-- `schemas.Risk`. -/
structure Risk where
  id : String
  title : String
  severity : String
  mitigation_strategy : Option String
  owner : Option String
deriving DecidableEq, Repr

/-- `schemas.Decision`. -/
structure Decision where
  id : String
  title : String
  rationale : String
  impact : Option String
deriving DecidableEq, Repr

/-- `schemas.QnARecord`. -/
structure QnARecord where
  question : String
  answer : String
  confidence : ℚ
deriving DecidableEq, Repr

/-- `schemas.TaskType`, a string-valued enum. -/
inductive TaskType where
  | l2Tracking
  | l2Communication
  | crossKnowledge
deriving DecidableEq, Repr

/-- The `.value` string of a `TaskType` member. -/
def TaskType.value : TaskType → String
  | .l2Tracking => "L2_Tracking"
  | .l2Communication => "L2_Communication"
  | .crossKnowledge => "Cross_Knowledge"

/-- `schemas.InputMessage` (timestamp omitted: no stage reads it). -/
structure InputMessage where
  message : String
  sender : String
  project_id : String
  message_id : Option String
deriving DecidableEq, Repr

/-- One entry of `state.plan` as the L1 node actually stores it: the
`tasks_list` dicts of `_node_l1_orchestrator`, whose `domain` field is the
serialized string value of the enum. -/
structure PlanTask where
  task_id : String
  domain : String
  description : String
  priority : Int
  status : String
deriving DecidableEq, Repr

/-- Knowledge context: a free-form string-keyed map (`Dict[str, Any]`),
abstracted to string values. -/
def KContext := List (String × String)
deriving DecidableEq, Repr

/-- `schemas.L2TrackingOutput` (the `domain` field is its serialized value,
as produced by `output.dict()`). -/
structure L2TrackingOutput where
  domain : String
  action_items : List ActionItem
  risks : List Risk
  decisions : List Decision
  logs : List String
deriving DecidableEq, Repr

/-- `schemas.L2CommunicationOutput`. -/
structure L2CommunicationOutput where
  domain : String
  qna_records : List QnARecord
  logs : List String
deriving DecidableEq, Repr

/-- `schemas.CrossCuttingOutput`. -/
structure CrossCuttingOutput where
  domain : String
  knowledge_context : KContext
  cache_hit : Bool
  logs : List String
deriving DecidableEq, Repr

/-- The `output` dict stored inside an `ExecutionResult`: one of the three
serialized domain payloads.  None of the three carries an
`extraction_confidence` or `generation_confidence` key. -/
inductive OutputPayload where
  | tracking (o : L2TrackingOutput)
  | communication (o : L2CommunicationOutput)
  | cross (o : CrossCuttingOutput)
deriving DecidableEq, Repr

/-- `schemas.ExecutionResult`.  `duration_ms` is wall-clock time in the
source; it is irrelevant to every claim and modelled as a plain rational. -/
structure ExecutionResult where
  task_id : String
  task_type : String
  status : String
  output : OutputPayload
  error : Option String
  duration_ms : ℚ
deriving DecidableEq, Repr

/-- `schemas.OrchestrationState` (creation timestamp omitted: never read). -/
structure OrchestrationState where
  input_message : InputMessage
  plan : List PlanTask
  execution_results : List (String × ExecutionResult)
  cross_cutting_context : KContext
  logs : List String
  state_id : String
deriving DecidableEq, Repr

/-! ## Evaluator on the live results map

`_node_evaluator` passes `state.execution_results` — whose values are
pydantic `ExecutionResult` objects — straight into `evaluate_output`, which
reads each value with dict-style `r.get("status")`.  A pydantic model has no
`get` method, so the very first such access raises `AttributeError`.  The
dynamic value is modelled as either shape; `evaluateOutputPy` returns the
evaluation for dict-shaped maps and the raised error otherwise. -/

/-- A Python value sitting in the results map: a plain dict or a pydantic
`ExecutionResult` model object. -/
inductive PyResVal where
  | dict (d : ResultDict)
  | model (r : ExecutionResult)
deriving DecidableEq, Repr

/-- `r.get(...)` works only on the dict shape. -/
def PyResVal.asDict : PyResVal → Option ResultDict
  | .dict d => some d
  | .model _ => none

/-- `evaluate_output` on a results map of dynamic Python values: runs to
completion on all-dict maps, raises `AttributeError` as soon as a pydantic
model value is reached by `r.get("status")`. -/
def evaluateOutputPy (rs : List (String × PyResVal)) :
    Except String Evaluation :=
  match rs.mapM (fun p => (p.2.asDict).map (fun d => (p.1, d))) with
  | some ds => .ok (evaluate_output ds)
  | none => .error "AttributeError: ExecutionResult object has no attribute get"

/-! ## Conditional router (`graph.py`, `_router_l1_to_l2`) -/

/-- Python `min(plan, key=lambda t: t.priority)`: keeps the current minimum
and replaces it only on a strictly smaller key, so the first of several
priority-ties wins. -/
def minByPriority : PlanTask → List PlanTask → PlanTask
  | cur, [] => cur
  | cur, x :: xs =>
    if x.priority < cur.priority then minByPriority x xs
    else minByPriority cur xs

/-- `_router_l1_to_l2`: empty plan routes to the Evaluator; otherwise the
domain of the minimum-priority task picks the stage, any unrecognized domain
falls through to the Evaluator. -/
def router_l1_to_l2 (plan : List PlanTask) : String :=
  match plan with
  | [] => "Evaluator"
  | h :: t =>
    let next := minByPriority h t
    if next.domain = "L2_Tracking" then "L2_Tracking"
    else if next.domain = "L2_Communication" then "L2_Communication"
    else if next.domain = "Cross_Knowledge" then "Cross_Knowledge"
    else "Evaluator"

/-! ## Stage functions (`graph.py` nodes)

Each external generation call is abstracted through an `Env` record holding
the parsed upstream responses, exactly at the boundary the spec declares
opaque (`generate(...) -> text` plus JSON decoding).  Everything after that
boundary is translated from the node bodies. -/

/-- One `task_data` dict of the parsed L1 response: every field is read with
`task_data.get(...)` and a default, so every field is optional. -/
structure TaskData where
  task_id : Option String
  domain : Option String
  description : Option String
  priority : Option Int
deriving DecidableEq, Repr

/-- The parsed L1 response: `plan_data.get("tasks", [])` and the `reasoning`
string (which the node never returns). -/
structure PlanData where
  tasks : List TaskData
  reasoning : String
deriving DecidableEq, Repr

/-- The hard-coded `plan_data` synthesized on `json.JSONDecodeError`. -/
def fallbackPlanData : PlanData :=
  { tasks :=
      [ { task_id := some "PLAN-001", domain := some "L2_Tracking",
          description := some "Analyze message for actions", priority := some 1 },
        { task_id := some "PLAN-002", domain := some "Cross_Knowledge",
          description := some "Retrieve project context", priority := some 1 } ]
    reasoning := "Default plan due to parse error" }

/-- The `domain_map` dict with its `.get(domain_str, TaskType.L2_TRACKING)`
default. -/
def domainMap (s : String) : TaskType :=
  if s = "L2_Tracking" then .l2Tracking
  else if s = "L2_Communication" then .l2Communication
  else if s = "Cross_Knowledge" then .crossKnowledge
  else .l2Tracking

/-- Task construction loop body of `_node_l1_orchestrator`: `i` is
`len(tasks)` at the time the entry is processed.  The result is already the
serialized `tasks_list` form (domain as string value). -/
def buildPlanTask (i : Nat) (td : TaskData) : PlanTask :=
  { task_id := td.task_id.getD ("PLAN-" ++ toString (i + 1))
    domain := (domainMap (td.domain.getD "L2_Tracking")).value
    description := td.description.getD ""
    priority := td.priority.getD 1
    status := "IN_PROGRESS" }

/-- External inputs of one run: the parsed L1 generation response (`none`
models `json.JSONDecodeError`), the L3 extraction results and the knowledge
lookup, all beyond the generation/lookup boundary. -/
structure Env where
  l1_parsed : Option PlanData
  action_items : List ActionItem
  risks : List Risk
  qna_records : List QnARecord
  knowledge : KContext

/-- The partial update a node returns: the optional keys of the returned
dict.  An absent key leaves the corresponding state field untouched. -/
structure StageUpdate where
  plan : Option (List PlanTask)
  execution_results : Option (List (String × ExecutionResult))
  cross_cutting_context : Option KContext
  logs : Option (List String)

/-- `_node_l1_orchestrator`: parse (or fall back), build the task list and
return the serialized plan plus the task-count log line. -/
def node_l1_orchestrator (env : Env) (state : OrchestrationState) : StageUpdate :=
  let plan_data := env.l1_parsed.getD fallbackPlanData
  let tasks := plan_data.tasks.mapIdx buildPlanTask
  { plan := some tasks
    execution_results := none
    cross_cutting_context := none
    logs := some (state.logs ++
      ["[L1] Created plan with " ++ toString tasks.length ++ " tasks"]) }

/-- The Decision synthesized by the textual heuristic of the tracking node. -/
def budgetDecision : Decision :=
  { id := "DEC-001"
    title := "Budget increase approved by customer"
    rationale := "Customer feedback indicates willingness to fund feature enhancement"
    impact := some "Enables accelerated feature roadmap" }

/-- `if "willing to pay" in state.input_message.message.lower(): ...` -/
def trackingDecisions (message : String) : List Decision :=
  if containsSubstr (strLower message) "willing to pay" then [budgetDecision]
  else []

/-- The `ExecutionResult` built by `_node_l2_tracking`. -/
def trackingResult (env : Env) (message : String) : ExecutionResult :=
  { task_id := "L2_TRACKING_001"
    task_type := "L2_Tracking"
    status := "SUCCESS"
    output := .tracking
      { domain := "L2_Tracking"
        action_items := env.action_items
        risks := env.risks
        decisions := trackingDecisions message
        logs := [] }
    error := none
    duration_ms := 0 }

/-- `_node_l2_tracking`: call the extractors, apply the decision heuristic,
store one SUCCESS result under the fixed key `L2_TRACKING_001`. -/
def node_l2_tracking (env : Env) (state : OrchestrationState) : StageUpdate :=
  { plan := none
    execution_results := some (astore state.execution_results "L2_TRACKING_001"
      (trackingResult env state.input_message.message))
    cross_cutting_context := none
    logs := some (state.logs ++
      ["[L2_Tracking] Completed: " ++ toString env.action_items.length ++
        " actions, " ++ toString env.risks.length ++ " risks"]) }

/-- The `ExecutionResult` built by `_node_l2_communication`. -/
def communicationResult (env : Env) : ExecutionResult :=
  { task_id := "L2_COMMUNICATION_001"
    task_type := "L2_Communication"
    status := "SUCCESS"
    output := .communication
      { domain := "L2_Communication"
        qna_records := env.qna_records
        logs := [] }
    error := none
    duration_ms := 0 }

/-- `_node_l2_communication`: one SUCCESS result under
`L2_COMMUNICATION_001`. -/
def node_l2_communication (env : Env) (state : OrchestrationState) : StageUpdate :=
  { plan := none
    execution_results := some (astore state.execution_results "L2_COMMUNICATION_001"
      (communicationResult env))
    cross_cutting_context := none
    logs := some (state.logs ++
      ["[L2_Communication] Completed: " ++ toString env.qna_records.length ++
        " Q&A records"]) }

/-- The `ExecutionResult` built by `_node_cross_knowledge`. -/
def knowledgeResult (env : Env) : ExecutionResult :=
  { task_id := "CROSS_KNOWLEDGE_001"
    task_type := "Cross_Knowledge"
    status := "SUCCESS"
    output := .cross
      { domain := "Cross_Knowledge"
        knowledge_context := env.knowledge
        cache_hit := false
        logs := [] }
    error := none
    duration_ms := 0 }

/-- `_node_cross_knowledge`: one SUCCESS result under `CROSS_KNOWLEDGE_001`
plus the knowledge context merged into the state. -/
def node_cross_knowledge (env : Env) (state : OrchestrationState) : StageUpdate :=
  { plan := none
    execution_results := some (astore state.execution_results "CROSS_KNOWLEDGE_001"
      (knowledgeResult env))
    cross_cutting_context := some env.knowledge
    logs := some (state.logs ++
      ["[Cross_Knowledge] Retrieved context for " ++ state.input_message.project_id]) }

/-- `_node_evaluator`: evaluate the live results map (whose values are
pydantic objects) and append the summary log line; the `AttributeError` of
`evaluate_output` propagates. -/
def node_evaluator (state : OrchestrationState) : Except String StageUpdate :=
  match evaluateOutputPy
      (state.execution_results.map (fun p => (p.1, PyResVal.model p.2))) with
  | .error e => .error e
  | .ok ev =>
    .ok
      { plan := none
        execution_results := none
        cross_cutting_context := none
        logs := some (state.logs ++
          ["[Evaluator] " ++ ev.overall_status ++ ": " ++
            toString ev.successful_tasks ++ "/" ++ toString ev.total_tasks ++
            " tasks successful"]) }

/-! ## Linear executor (`graph.py`, `invoke_simple`, and the fixed edge
order of `_build_graph`) -/

/-- Python `dict.update`: fold the new bindings into the old map, colliding
keys overwritten in place, fresh keys appended. -/
def dictUpdate (old new : List (String × α)) : List (String × α) :=
  new.foldl (fun acc p => astore acc p.1 p.2) old

/-- The five pipeline stages. -/
inductive Stage where
  | planner
  | tracking
  | communication
  | knowledge
  | evaluator
deriving DecidableEq, Repr

/-- Observable executor events: a stage being invoked, or a routing decision
consulting the conditional router. -/
inductive Event where
  | ranStage (s : Stage)
  | routed (target : String)
deriving DecidableEq, Repr

/-- The fresh state `invoke_simple` builds from the input message (the run
id comes from `uuid.uuid4()`; it is threaded as a parameter). -/
def initState (msg : InputMessage) (sid : String) : OrchestrationState :=
  { input_message := msg
    plan := []
    execution_results := []
    cross_cutting_context := []
    logs := []
    state_id := sid }

/-- The state `invoke_simple` hands to the evaluator stage, i.e. the state
after the updates of the four preceding stages have been applied in order, each
update applied exactly as the Python body applies it. -/
def stateBeforeEvaluator (env : Env) (msg : InputMessage) (sid : String) :
    OrchestrationState :=
  let s₀ := initState msg sid
  let u₁ := node_l1_orchestrator env s₀
  let s₁ := { s₀ with plan := u₁.plan.getD [], logs := u₁.logs.getD s₀.logs }
  let u₂ := node_l2_tracking env s₁
  let s₂ := { s₁ with
    execution_results := dictUpdate s₁.execution_results (u₂.execution_results.getD [])
    logs := u₂.logs.getD s₁.logs }
  let u₃ := node_l2_communication env s₂
  let s₃ := { s₂ with
    execution_results := dictUpdate s₂.execution_results (u₃.execution_results.getD [])
    logs := u₃.logs.getD s₂.logs }
  let u₄ := node_cross_knowledge env s₃
  { s₃ with
    execution_results := dictUpdate s₃.execution_results (u₄.execution_results.getD [])
    cross_cutting_context :=
      dictUpdate s₃.cross_cutting_context (u₄.cross_cutting_context.getD [])
    logs := u₄.logs.getD s₃.logs }

/-- Model of `invoke_simple`, line for line: the update returned by each
stage is applied to the state exactly as the Python body does before the
next stage runs, and the trace of invoked stages is recorded.  An exception
raised by the evaluator aborts the run. -/
def invoke_simple (env : Env) (msg : InputMessage) (sid : String) :
    List Event × Except String OrchestrationState :=
  let s₄ := stateBeforeEvaluator env msg sid
  let events := [Event.ranStage .planner, Event.ranStage .tracking,
    Event.ranStage .communication, Event.ranStage .knowledge,
    Event.ranStage .evaluator]
  match node_evaluator s₄ with
  | .error e => (events, .error e)
  | .ok u₅ => (events, .ok { s₄ with logs := u₅.logs.getD s₄.logs })

/-- The partial-update application contract of §6 of the spec: absent fields
are no-ops, a present plan replaces the plan, present results and context
maps merge key-wise, present logs replace the log list (each node returns
`state.logs + new_lines` as its log field). -/
def applyUpdate (s : OrchestrationState) (u : StageUpdate) : OrchestrationState :=
  { s with
    plan := u.plan.getD s.plan
    execution_results := dictUpdate s.execution_results (u.execution_results.getD [])
    cross_cutting_context :=
      dictUpdate s.cross_cutting_context (u.cross_cutting_context.getD [])
    logs := u.logs.getD s.logs }

/-- A generic sequential executor: run the listed stages in order, applying
the partial update of each stage fully (via `applyUpdate`) before invoking the
next stage; a raised exception aborts the run.  It performs no routing, so
its trace contains `ranStage` events only. -/
def execStages :
    List (Stage × (OrchestrationState → Except String StageUpdate)) →
    OrchestrationState → List Event × Except String OrchestrationState
  | [], s => ([], .ok s)
  | (st, f) :: rest, s =>
    match f s with
    | .error e => ([Event.ranStage st], .error e)
    | .ok u =>
      let next := execStages rest (applyUpdate s u)
      (Event.ranStage st :: next.1, next.2)

/-- The stage list of the linear variant, in the fixed edge order of
`_build_graph`: Planner, Tracking, Communication, Knowledge, Evaluator. -/
def linearStages (env : Env) :
    List (Stage × (OrchestrationState → Except String StageUpdate)) :=
  [ (.planner, fun s => .ok (node_l1_orchestrator env s)),
    (.tracking, fun s => .ok (node_l2_tracking env s)),
    (.communication, fun s => .ok (node_l2_communication env s)),
    (.knowledge, fun s => .ok (node_cross_knowledge env s)),
    (.evaluator, fun s => node_evaluator s) ]

/-! ## Accessors used by the statements -/

/-- The execution result a stage update stores under `key`. -/
def resultOf (u : StageUpdate) (key : String) : Option ExecutionResult :=
  alookup (u.execution_results.getD []) key

/-- The `decisions` list of a serialized output dict (`[]` when the payload
has no such key). -/
def outputDecisions : OutputPayload → List Decision
  | .tracking o => o.decisions
  | .communication _ => []
  | .cross _ => []

/-- The confidence keys of a serialized output dict.  None of the three
payload classes (`L2TrackingOutput`, `L2CommunicationOutput`,
`CrossCuttingOutput`) declares an `extraction_confidence` or
`generation_confidence` field, so all three serialize without either key. -/
def outputConfKeys : OutputPayload → Option ℚ × Option ℚ
  | .tracking _ => (none, none)
  | .communication _ => (none, none)
  | .cross _ => (none, none)

/-- The dict-shaped view `evaluate_output` would read off an
`ExecutionResult`, had the result been serialized to a dict first. -/
def dictView (r : ExecutionResult) : ResultDict :=
  { status := some r.status
    extraction_confidence := (outputConfKeys r.output).1
    generation_confidence := (outputConfKeys r.output).2 }

/-- Formalization of the claimed phrase "a log entry mentioning the
fallback": the entry contains (case-insensitively) any of the words the
fallback path uses to describe itself — "fallback", "parse", "default" or
"error". -/
def mentionsFallback (e : String) : Bool :=
  containsSubstr (strLower e) "fallback" || containsSubstr (strLower e) "parse" ||
    containsSubstr (strLower e) "default" || containsSubstr (strLower e) "error"

/-! ## Concrete instances used by witnesses and counterexamples -/

/-- Router witness plan entry: communication task at priority 2. -/
def c1TaskA : PlanTask := ⟨"T-A", "L2_Communication", "a", 2, "PENDING"⟩

/-- Router witness plan entry: knowledge task at priority 1 (first of a tie). -/
def c1TaskB : PlanTask := ⟨"T-B", "Cross_Knowledge", "b", 1, "PENDING"⟩

/-- Router witness plan entry: tracking task also at priority 1. -/
def c1TaskC : PlanTask := ⟨"T-C", "L2_Tracking", "c", 1, "PENDING"⟩

/-- An operation that raises the designated rate-limit error once, then
returns 7. -/
def c2op : Nat → Except PyExc Nat :=
  fun k => if k < 1 then .error .resourceExhausted else .ok 7

/-- An operation that always raises a generic exception whose message
carries the rate-limit marker. -/
def c2opAlwaysFail : Nat → Except PyExc Nat :=
  fun _ => .error (.generic "ResourceExhausted 429 quota exceeded")

/-- An operation that always raises a non-rate-limit exception. -/
def c3op : Nat → Except PyExc Nat := fun _ => .error (.generic "ValueError boom")

/-- Environment whose generation response is not valid JSON. -/
def c4envFail : Env := ⟨none, [], [], [], []⟩

/-- Environment whose generation response parsed into a two-task plan. -/
def c4envParsed : Env :=
  ⟨some ⟨[⟨some "PLAN-001", some "L2_Tracking", some "check actions", some 1⟩,
          ⟨some "PLAN-002", some "Cross_Knowledge", some "get context", some 1⟩],
         "two tasks"⟩, [], [], [], []⟩

/-- A fresh run state for the planner claims. -/
def c4state : OrchestrationState := initState ⟨"demo went well", "s", "PRJ-X", none⟩ "sid-1"

/-- A fresh cache world: primary tier reachable, both tiers empty, clock 0. -/
def c5world : CacheWorld Nat := ⟨true, [], [], 0⟩

/-- Run state whose message contains the decision phrase (in mixed case). -/
def c9state : OrchestrationState :=
  initState ⟨"They said they are WILLING to pay 20 percent more", "Sarah", "PRJ-ALPHA", none⟩ "sid"

/-- Run state whose message does not contain the decision phrase. -/
def c9stateNo : OrchestrationState :=
  initState ⟨"The demo went great", "Sarah", "PRJ-ALPHA", none⟩ "sid"

/-- Input message for the C10 witness run. -/
def c10msg : InputMessage := ⟨"Please add notifications", "Sarah", "PRJ-ALPHA", none⟩

/-- Results-map instance of the evaluator boundary scenario: one FAILED
entry and two SUCCESS entries with confidences 9/10 and 6/10. -/
def c7results : List (String × ResultDict) :=
  [("TASK_A", ⟨some "FAILED", none, none⟩),
   ("TASK_B", ⟨some "SUCCESS", some (9/10), none⟩),
   ("TASK_C", ⟨some "SUCCESS", none, some (6/10)⟩)]

/-! ## Helper lemmas -/

theorem alookup_astore_self (l : List (String × α)) (k : String) (v : α) :
    alookup (astore l k v) k = some v := by
  induction l with
  | nil => simp [astore, alookup]
  | cons p rest ih =>
    by_cases h : p.1 = k
    · simp [astore, alookup, h]
    · simp [astore, alookup, h, ih]

theorem rateLimitFailure_elim {r : Except PyExc α} (h : rateLimitFailure r = true) :
    ∃ e, r = .error e ∧ isRateLimit e = true := by
  cases r with
  | ok v => simp [rateLimitFailure] at h
  | error e => exact ⟨e, rfl, by simpa [rateLimitFailure] using h⟩

theorem minByPriority_mem (cur : PlanTask) (l : List PlanTask) :
    minByPriority cur l ∈ cur :: l := by
  induction l generalizing cur with
  | nil => simp [minByPriority]
  | cons x xs ih =>
    simp only [minByPriority]
    by_cases h : x.priority < cur.priority
    · rw [if_pos h]
      exact List.mem_cons_of_mem _ (ih x)
    · rw [if_neg h]
      rcases List.mem_cons.mp (ih cur) with h1 | h1
      · rw [h1]; exact List.mem_cons_self _ _
      · exact List.mem_cons_of_mem _ (List.mem_cons_of_mem _ h1)

theorem minByPriority_le (cur : PlanTask) (l : List PlanTask) :
    ∀ x ∈ cur :: l, (minByPriority cur l).priority ≤ x.priority := by
  induction l generalizing cur with
  | nil =>
    intro x hx
    rcases List.mem_cons.mp hx with h1 | h1
    · rw [h1]; simp [minByPriority]
    · simp at h1
  | cons y ys ih =>
    intro x hx
    simp only [minByPriority]
    by_cases h : y.priority < cur.priority
    · rw [if_pos h]
      rcases List.mem_cons.mp hx with h1 | h1
      · rw [h1]
        exact le_trans (ih y y (List.mem_cons_self y ys)) (le_of_lt h)
      · exact ih y x h1
    · rw [if_neg h]
      rcases List.mem_cons.mp hx with h1 | h1
      · rw [h1]
        exact ih cur cur (List.mem_cons_self cur ys)
      · rcases List.mem_cons.mp h1 with h2 | h2
        · rw [h2]
          exact le_trans (ih cur cur (List.mem_cons_self cur ys)) (not_lt.mp h)
        · exact ih cur x (List.mem_cons_of_mem _ h2)

theorem minByPriority_first (cur : PlanTask) (l : List PlanTask) :
    ∃ pre post, cur :: l = pre ++ minByPriority cur l :: post ∧
      ∀ x ∈ pre, (minByPriority cur l).priority < x.priority := by
  induction l generalizing cur with
  | nil => exact ⟨[], [], by simp [minByPriority], by simp⟩
  | cons y ys ih =>
    simp only [minByPriority]
    by_cases h : y.priority < cur.priority
    · rw [if_pos h]
      obtain ⟨pre, post, heq, hpre⟩ := ih y
      refine ⟨cur :: pre, post, ?_, ?_⟩
      · rw [List.cons_append, ← heq]
      · intro x hx
        rcases List.mem_cons.mp hx with h1 | h1
        · rw [h1]
          exact lt_of_le_of_lt (minByPriority_le y ys y (List.mem_cons_self y ys)) h
        · exact hpre x h1
    · rw [if_neg h]
      obtain ⟨pre, post, heq, hpre⟩ := ih cur
      cases pre with
      | nil =>
        simp only [List.nil_append] at heq
        injection heq with h1 h2
        refine ⟨[], y :: ys, ?_, by simp⟩
        simp only [List.nil_append]
        rw [← h1]
      | cons p ps =>
        rw [List.cons_append] at heq
        injection heq with h1 h2
        have hmincur : (minByPriority cur ys).priority < cur.priority := by
          have := hpre p (List.mem_cons_self p ps)
          rwa [← h1] at this
        refine ⟨cur :: y :: ps, post, ?_, ?_⟩
        · rw [List.cons_append, List.cons_append, ← h2]
        · intro x hx
          rcases List.mem_cons.mp hx with h1x | h1x
          · rw [h1x]; exact hmincur
          · rcases List.mem_cons.mp h1x with h2x | h2x
            · rw [h2x]
              exact lt_of_lt_of_le hmincur (not_lt.mp h)
            · exact hpre x (List.mem_cons_of_mem _ h2x)

/-! ## Claims -/

/-- Claim C1: for every orchestration state, the conditional router returns
the Evaluator stage when the plan is empty; otherwise it selects the task
with the numerically smallest priority value — the first-encountered one on
ties (every strictly earlier task has strictly larger priority) — returns
the stage corresponding to that domain, and returns the Evaluator stage
when the domain matches none of the three known domains.  The router is a
plain function of the plan, so repeated calls with the same input plan
route identically by construction. -/
theorem C1_router_min_priority (plan : List PlanTask) :
    (plan = [] → router_l1_to_l2 plan = "Evaluator") ∧
    (∀ hd tl, plan = hd :: tl →
      minByPriority hd tl ∈ plan ∧
      (∀ x ∈ plan, (minByPriority hd tl).priority ≤ x.priority) ∧
      (∃ pre post, plan = pre ++ minByPriority hd tl :: post ∧
        ∀ x ∈ pre, (minByPriority hd tl).priority < x.priority) ∧
      ((minByPriority hd tl).domain = "L2_Tracking" →
        router_l1_to_l2 plan = "L2_Tracking") ∧
      ((minByPriority hd tl).domain = "L2_Communication" →
        router_l1_to_l2 plan = "L2_Communication") ∧
      ((minByPriority hd tl).domain = "Cross_Knowledge" →
        router_l1_to_l2 plan = "Cross_Knowledge") ∧
      ((minByPriority hd tl).domain ≠ "L2_Tracking" →
        (minByPriority hd tl).domain ≠ "L2_Communication" →
        (minByPriority hd tl).domain ≠ "Cross_Knowledge" →
        router_l1_to_l2 plan = "Evaluator")) := by
  constructor
  · intro h; rw [h]; rfl
  · intro hd tl hplan
    subst hplan
    refine ⟨minByPriority_mem hd tl, minByPriority_le hd tl,
      minByPriority_first hd tl, ?_, ?_, ?_, ?_⟩
    · intro hdom; simp [router_l1_to_l2, hdom]
    · intro hdom; simp [router_l1_to_l2, hdom]
    · intro hdom; simp [router_l1_to_l2, hdom]
    · intro h1 h2 h3; simp [router_l1_to_l2, h1, h2, h3]

/-- Witness for C1: the empty plan routes to the Evaluator, and a
three-task plan with a priority tie between its second and third tasks
routes to the domain of the second (first-encountered minimum). -/
theorem C1_router_min_priority_witness :
    router_l1_to_l2 [] = "Evaluator" ∧
    router_l1_to_l2 [c1TaskA, c1TaskB, c1TaskC] = "Cross_Knowledge" := by
  constructor
  · exact (C1_router_min_priority []).1 rfl
  · have h := (C1_router_min_priority [c1TaskA, c1TaskB, c1TaskC]).2
      c1TaskA [c1TaskB, c1TaskC] rfl
    exact h.2.2.2.2.2.1 (by decide)

/-- Claim C2: with max_attempts 3 and initial delay 4, an operation that
fails with a rate-limit classified error exactly n times (n below 3) and
then succeeds makes the wrapped call succeed after exactly n plus one
invocations, sleeping the doubling delays 4 * 2 ^ i; an operation that
always fails with a rate-limit classified error makes the wrapped call
raise the terminal retries-exhausted failure (naming the wrapped
operation) after exactly 3 invocations, with sleeps 4, 8, 16. -/
theorem C2_retry_backoff {α : Type} (op : Nat → Except PyExc α) (fname : String) :
    (∀ n v, n < 3 → (∀ k, k < n → rateLimitFailure (op k) = true) →
      op n = .ok v →
      retry_on_429 op fname 3 4 =
        ⟨.ok v, n + 1, (List.range n).map (fun i => 4 * 2 ^ i)⟩) ∧
    ((∀ k, rateLimitFailure (op k) = true) →
      retry_on_429 op fname 3 4 = ⟨.exhausted fname, 3, [4, 8, 16]⟩) := by
  constructor
  · intro n v hn hfail hok
    interval_cases n
    · simp [retry_on_429, retryLoop, hok]
    · obtain ⟨e0, he0, hrl0⟩ := rateLimitFailure_elim (hfail 0 (by decide))
      simp [retry_on_429, retryLoop, he0, hrl0, hok]
      decide
    · obtain ⟨e0, he0, hrl0⟩ := rateLimitFailure_elim (hfail 0 (by decide))
      obtain ⟨e1, he1, hrl1⟩ := rateLimitFailure_elim (hfail 1 (by decide))
      simp [retry_on_429, retryLoop, he0, hrl0, he1, hrl1, hok]
      decide
  · intro hfail
    obtain ⟨e0, he0, hrl0⟩ := rateLimitFailure_elim (hfail 0)
    obtain ⟨e1, he1, hrl1⟩ := rateLimitFailure_elim (hfail 1)
    obtain ⟨e2, he2, hrl2⟩ := rateLimitFailure_elim (hfail 2)
    simp [retry_on_429, retryLoop, he0, hrl0, he1, hrl1, he2, hrl2]

/-- Witness for C2: one rate-limit failure then success gives two
invocations and one sleep of 4; persistent rate-limit failure gives the
exhausted outcome after three invocations with sleeps 4, 8, 16. -/
theorem C2_retry_backoff_witness :
    ((1 < 3 ∧ (∀ k, k < 1 → rateLimitFailure (c2op k) = true) ∧ c2op 1 = .ok 7) ∧
      retry_on_429 c2op "extract_action_items" 3 4 = ⟨.ok 7, 2, [4]⟩) ∧
    ((∀ k, rateLimitFailure (c2opAlwaysFail k) = true) ∧
      retry_on_429 c2opAlwaysFail "extract_risks" 3 4 =
        ⟨.exhausted "extract_risks", 3, [4, 8, 16]⟩) := by
  refine ⟨⟨⟨by decide, by decide, rfl⟩, ?_⟩, ⟨fun k => rfl, ?_⟩⟩
  · have h := (C2_retry_backoff c2op "extract_action_items").1 1 7
      (by decide) (by decide) rfl
    simpa using h
  · exact (C2_retry_backoff c2opAlwaysFail "extract_risks").2 (fun k => rfl)

/-- Claim C3: a failure that is neither the designated rate-limit error
type nor a generic failure whose message contains the marker propagates to
the caller unchanged after exactly one invocation, with no sleep. -/
theorem C3_retry_passthrough {α : Type} (op : Nat → Except PyExc α)
    (fname : String) (e : PyExc) (hop : op 0 = .error e)
    (hrl : isRateLimit e = false) :
    retry_on_429 op fname 3 4 = ⟨.raised e, 1, []⟩ := by
  simp [retry_on_429, retryLoop, hop, hrl]

/-- Witness for C3: a generic non-429 failure is re-raised unchanged after
one invocation and no sleep. -/
theorem C3_retry_passthrough_witness :
    (c3op 0 = .error (.generic "ValueError boom") ∧
      isRateLimit (.generic "ValueError boom") = false) ∧
    retry_on_429 c3op "generate_qna" 3 4 =
      ⟨.raised (.generic "ValueError boom"), 1, []⟩ :=
  ⟨⟨rfl, by decide⟩,
    C3_retry_passthrough c3op "generate_qna" (.generic "ValueError boom") rfl (by decide)⟩

/-- Counterexample for C4: on a generation response that is not valid JSON
the planner appends exactly one entry to the run log — the task-count line
"[L1] Created plan with 2 tasks" — which mentions no fallback (none of the
words fallback, parse, default, error occur in it, in any case), and which
is byte-for-byte the same entry a successfully parsed two-task response
produces; so no appended log entry mentions the fallback.  The fallback is
recorded only on the process logger and in the discarded reasoning field. -/
theorem C4_planner_fallback_counterexample :
    (node_l1_orchestrator c4envFail c4state).logs =
      some ["[L1] Created plan with 2 tasks"] ∧
    mentionsFallback "[L1] Created plan with 2 tasks" = false ∧
    (node_l1_orchestrator c4envParsed c4state).logs =
      (node_l1_orchestrator c4envFail c4state).logs := by
  refine ⟨?_, by decide, ?_⟩ <;> decide

/-- Claim C4 as amended: for every generation response that is not valid
JSON, the Planner stage produces a plan with exactly two tasks — one with
the Tracking domain and one with the Knowledge domain, both priority 1 —
and appends to the run log a single entry reporting the task count (not
one mentioning the fallback). -/
theorem C4_planner_fallback (env : Env) (state : OrchestrationState)
    (hfail : env.l1_parsed = none) :
    (node_l1_orchestrator env state).plan =
      some [⟨"PLAN-001", "L2_Tracking", "Analyze message for actions", 1, "IN_PROGRESS"⟩,
            ⟨"PLAN-002", "Cross_Knowledge", "Retrieve project context", 1, "IN_PROGRESS"⟩] ∧
    (node_l1_orchestrator env state).logs =
      some (state.logs ++ ["[L1] Created plan with 2 tasks"]) := by
  constructor <;>
      simp [node_l1_orchestrator, hfail, fallbackPlanData, buildPlanTask, domainMap,
        TaskType.value, List.mapIdx] <;>
    decide

/-- Witness for C4: the fallback environment satisfies the parse-failure
hypothesis and yields the fixed two-task plan. -/
theorem C4_planner_fallback_witness :
    c4envFail.l1_parsed = none ∧
    (node_l1_orchestrator c4envFail c4state).plan =
      some [⟨"PLAN-001", "L2_Tracking", "Analyze message for actions", 1, "IN_PROGRESS"⟩,
            ⟨"PLAN-002", "Cross_Knowledge", "Retrieve project context", 1, "IN_PROGRESS"⟩] :=
  ⟨rfl, (C4_planner_fallback c4envFail c4state rfl).1⟩

/-- Claim C5: starting from a world where the key is absent from both
tiers, the first call invokes the computation and writes the value through
to both tiers with the requested TTL (to the primary tier whenever it is
reachable); a second call with the same key before the TTL expires is
served from a cache tier without invoking the computation (so the two
calls invoke it exactly once); a third call at or after the expiry instant
— when the primary tier is absent or misses, which here is forced since
its like-TTL entry has expired too — invokes the computation again; and in
general a fallback-tier entry whose expiry instant has passed is treated
as absent. -/
theorem C5_tiered_cache {α : Type} (w₀ : CacheWorld α) (key : String)
    (ttl : Nat) (f : α) (t₂ t₃ : Nat)
    (hp : alookup w₀.primary key = none)
    (hm : alookup w₀.memory key = none)
    (h₂ : t₂ < w₀.now + ttl)
    (h₃ : w₀.now + ttl ≤ t₃) :
    let r₁ := cache_result w₀ key ttl f
    let w₁ := { r₁.2.1 with now := t₂ }
    let r₂ := cache_result w₁ key ttl f
    let w₂ := { r₂.2.1 with now := t₃ }
    let r₃ := cache_result w₂ key ttl f
    (r₁.1 = f ∧ r₁.2.2 = true ∧
      alookup r₁.2.1.memory key = some (f, w₀.now + ttl) ∧
      (w₀.primaryAvail = true →
        alookup r₁.2.1.primary key = some (f, w₀.now + ttl))) ∧
    (r₂.1 = f ∧ r₂.2.2 = false) ∧
    (r₃.1 = f ∧ r₃.2.2 = true) ∧
    (∀ (w : CacheWorld α) (k : String) (v : α) (e : Nat),
      alookup w.memory k = some (v, e) → e ≤ w.now → memoryGet w k = none) := by
  intro r₁ w₁ r₂ w₂ r₃
  have hgen : ∀ (w : CacheWorld α) (k : String) (v : α) (e : Nat),
      alookup w.memory k = some (v, e) → e ≤ w.now → memoryGet w k = none := by
    intro w k v e hme hexp
    simp [memoryGet, hme, Nat.not_lt.mpr hexp]
  by_cases hav : w₀.primaryAvail <;>
      simp [r₁, w₁, r₂, w₂, r₃, cache_result, primaryGet, memoryGet, hp, hm, hav,
        alookup_astore_self, h₂, Nat.not_lt.mpr h₃] <;>
    exact fun w k v e hme hexp => by simp [hme, Nat.not_lt.mpr hexp]

/-- Witness for C5: a fresh world, TTL 60, calls at times 0, 5 and 60 —
the first call computes, the second is served from cache. -/
theorem C5_tiered_cache_witness :
    (alookup c5world.primary "retrieve_knowledge:PRJ-ALPHA" = none ∧
      alookup c5world.memory "retrieve_knowledge:PRJ-ALPHA" = none ∧
      (5 : Nat) < c5world.now + 60 ∧ c5world.now + 60 ≤ 60) ∧
    (cache_result c5world "retrieve_knowledge:PRJ-ALPHA" 60 42).2.2 = true ∧
    (cache_result { (cache_result c5world "retrieve_knowledge:PRJ-ALPHA" 60 42).2.1
        with now := 5 } "retrieve_knowledge:PRJ-ALPHA" 60 42).2.2 = false := by
  have h := C5_tiered_cache c5world "retrieve_knowledge:PRJ-ALPHA" 60 42 5 60
    rfl rfl (by decide) (by decide)
  exact ⟨⟨rfl, rfl, by decide, by decide⟩, h.1.2.1, h.2.1.2⟩

/-- Claim C6: every run of the linear executor invokes exactly the five
stages Planner, Tracking, Communication, Knowledge, Evaluator, once each
and in that fixed order; the straight-line body is equal to the generic
sequential executor that fully applies each partial update to the state
before invoking the next stage; and the trace contains no routing event
(the conditional router is never consulted). -/
theorem C6_linear_executor (env : Env) (msg : InputMessage) (sid : String) :
    (invoke_simple env msg sid).1 =
      [Event.ranStage .planner, Event.ranStage .tracking,
        Event.ranStage .communication, Event.ranStage .knowledge,
        Event.ranStage .evaluator] ∧
    invoke_simple env msg sid = execStages (linearStages env) (initState msg sid) ∧
    (∀ e ∈ (invoke_simple env msg sid).1, ∀ target, e ≠ Event.routed target) := by
  have h1 : (invoke_simple env msg sid).1 =
      [Event.ranStage .planner, Event.ranStage .tracking,
        Event.ranStage .communication, Event.ranStage .knowledge,
        Event.ranStage .evaluator] := by
    cases he : node_evaluator (stateBeforeEvaluator env msg sid) <;>
      simp [invoke_simple, he]
  refine ⟨h1, rfl, ?_⟩
  intro e he target
  rw [h1] at he
  fin_cases he <;> simp

/-- Witness for C6: a concrete run produces exactly the five-stage trace,
and its first trace event is a stage invocation, not a routing event. -/
theorem C6_linear_executor_witness :
    (invoke_simple c4envFail c10msg "sid").1 =
      [Event.ranStage .planner, Event.ranStage .tracking,
        Event.ranStage .communication, Event.ranStage .knowledge,
        Event.ranStage .evaluator] ∧
    Event.ranStage Stage.planner ≠ Event.routed "L2_Tracking" :=
  ⟨(C6_linear_executor c4envFail c10msg "sid").1,
    (C6_linear_executor c4envFail c10msg "sid").2.2
      (Event.ranStage .planner) (by decide) "L2_Tracking"⟩

/-- Claim C7: a results map of exactly 3 entries of which 1 is FAILED and
2 are SUCCESS with confidence fields 9/10 and 6/10 evaluates to
total 3, successful 2, failed 1, overall status PARTIAL, average
confidence 3/4; the review-failed-tasks recommendation is included and the
low-confidence recommendation is excluded, because the threshold
comparison is strict less-than and the average equals the threshold.
Confidences are modelled as exact rationals. -/
theorem C7_evaluator_boundary :
    evaluate_output c7results =
      { total_tasks := 3, successful_tasks := 2, failed_tasks := 1,
        average_confidence := 3/4, overall_status := "PARTIAL",
        recommendations := ["Review failed tasks for issues"] } ∧
    "Review failed tasks for issues" ∈ (evaluate_output c7results).recommendations ∧
    "Consider re-running with higher model precision" ∉
      (evaluate_output c7results).recommendations ∧
    ¬ (evaluate_output c7results).average_confidence < 3/4 ∧
    (evaluate_output c7results).average_confidence = 3/4 := by
  have havg : ((9 : ℚ)/10 + (6/10 + 0)) / 2 = 3/4 := by norm_num
  refine ⟨?_, ?_, ?_, ?_, ?_⟩ <;>
      simp [evaluate_output, c7results, confContribution, havg] <;>
    norm_num

/-- Claim C8, settled against the code as a bug: the evaluator body reads
each result with dict-style access, so on the results maps the pipeline
actually passes it — whose values are pydantic ExecutionResult objects —
it raises AttributeError at the first entry; consequently every linear run
aborts with that error.  The zero-results half of the claim is what the
code does: an empty results map evaluates without raising to zero counts,
zero average confidence and COMPLETED status. -/
theorem C8_evaluator_attribute_error :
    evaluateOutputPy
        [("L2_TRACKING_001", .model (trackingResult ⟨none, [], [], [], []⟩ "m"))] =
      .error "AttributeError: ExecutionResult object has no attribute get" ∧
    (∀ env msg sid, (invoke_simple env msg sid).2 =
      .error "AttributeError: ExecutionResult object has no attribute get") ∧
    evaluateOutputPy [] =
      .ok { total_tasks := 0, successful_tasks := 0, failed_tasks := 0,
            average_confidence := 0, overall_status := "COMPLETED",
            recommendations := ["Consider re-running with higher model precision"] } ∧
    evaluate_output [] =
      { total_tasks := 0, successful_tasks := 0, failed_tasks := 0,
        average_confidence := 0, overall_status := "COMPLETED",
        recommendations := ["Consider re-running with higher model precision"] } := by
  have hzero : evaluate_output ([] : List (String × ResultDict)) =
      { total_tasks := 0, successful_tasks := 0, failed_tasks := 0,
        average_confidence := 0, overall_status := "COMPLETED",
        recommendations := ["Consider re-running with higher model precision"] } := by
    simp [evaluate_output]
  refine ⟨rfl, fun env msg sid => rfl, ?_, hzero⟩
  have hnil : evaluateOutputPy ([] : List (String × PyResVal)) =
      .ok (evaluate_output []) := rfl
  rw [hnil, hzero]

/-- Claim C9: the Tracking coordinator stores its output under the fixed
key and that output carries exactly the decisions of the textual
heuristic, independently of what the extraction operations returned; a
message containing the phrase willing-to-pay (matched case-insensitively)
yields exactly the one synthesized Decision record, and a message not
containing it yields none. -/
theorem C9_tracking_decision (env : Env) (state : OrchestrationState) :
    ((resultOf (node_l2_tracking env state) "L2_TRACKING_001").map
        (fun r => outputDecisions r.output)) =
      some (trackingDecisions state.input_message.message) ∧
    (containsSubstr (strLower state.input_message.message) "willing to pay" = true →
      trackingDecisions state.input_message.message = [budgetDecision]) ∧
    (containsSubstr (strLower state.input_message.message) "willing to pay" = false →
      trackingDecisions state.input_message.message = []) := by
  refine ⟨?_, ?_, ?_⟩
  · simp [resultOf, node_l2_tracking, alookup_astore_self, trackingResult,
      outputDecisions]
  · intro h; simp [trackingDecisions, h]
  · intro h; simp [trackingDecisions, h]

/-- Witness for C9: a mixed-case message containing the phrase yields the
single Decision record; a message without the phrase yields none. -/
theorem C9_tracking_decision_witness :
    (containsSubstr (strLower c9state.input_message.message) "willing to pay" = true ∧
      trackingDecisions c9state.input_message.message = [budgetDecision]) ∧
    (containsSubstr (strLower c9stateNo.input_message.message) "willing to pay" = false ∧
      trackingDecisions c9stateNo.input_message.message = []) :=
  ⟨⟨by decide, (C9_tracking_decision ⟨none, [], [], [], []⟩ c9state).2.1 (by decide)⟩,
    ⟨by decide, (C9_tracking_decision ⟨none, [], [], [], []⟩ c9stateNo).2.2 (by decide)⟩⟩

/-- Claim C10: each of the Tracking, Communication and Knowledge stages
stores a result with status SUCCESS under its fixed key; after the four
pre-evaluator stages of a linear run the results map holds exactly the
three fixed keys, every stored status is SUCCESS, and evaluating the
dict-shaped view of that map yields zero failed tasks, overall status
COMPLETED and no review-failed-tasks recommendation — so the PARTIAL
status and that recommendation are unreachable through the pipeline
stages themselves. -/
theorem C10_all_success (env : Env) (msg : InputMessage) (sid : String) :
    (∀ s, (resultOf (node_l2_tracking env s) "L2_TRACKING_001").map
        (fun r => r.status) = some "SUCCESS") ∧
    (∀ s, (resultOf (node_l2_communication env s) "L2_COMMUNICATION_001").map
        (fun r => r.status) = some "SUCCESS") ∧
    (∀ s, (resultOf (node_cross_knowledge env s) "CROSS_KNOWLEDGE_001").map
        (fun r => r.status) = some "SUCCESS") ∧
    (stateBeforeEvaluator env msg sid).execution_results.map Prod.fst =
      ["L2_TRACKING_001", "L2_COMMUNICATION_001", "CROSS_KNOWLEDGE_001"] ∧
    (∀ p ∈ (stateBeforeEvaluator env msg sid).execution_results,
      p.2.status = "SUCCESS") ∧
    (evaluate_output ((stateBeforeEvaluator env msg sid).execution_results.map
        (fun p => (p.1, dictView p.2)))).failed_tasks = 0 ∧
    (evaluate_output ((stateBeforeEvaluator env msg sid).execution_results.map
        (fun p => (p.1, dictView p.2)))).overall_status = "COMPLETED" ∧
    "Review failed tasks for issues" ∉
      (evaluate_output ((stateBeforeEvaluator env msg sid).execution_results.map
        (fun p => (p.1, dictView p.2)))).recommendations := by
  have hres : (stateBeforeEvaluator env msg sid).execution_results =
      [("L2_TRACKING_001", trackingResult env msg.message),
       ("L2_COMMUNICATION_001", communicationResult env),
       ("CROSS_KNOWLEDGE_001", knowledgeResult env)] := rfl
  refine ⟨?_, ?_, ?_, ?_, ?_, ?_, ?_, ?_⟩
  · intro s
    simp [resultOf, node_l2_tracking, alookup_astore_self, trackingResult]
  · intro s
    simp [resultOf, node_l2_communication, alookup_astore_self, communicationResult]
  · intro s
    simp [resultOf, node_cross_knowledge, alookup_astore_self, knowledgeResult]
  · rw [hres]; rfl
  · intro p hp
    rw [hres] at hp
    fin_cases hp <;> rfl
  · rw [hres]
    simp [evaluate_output, dictView, outputConfKeys, confContribution,
      trackingResult, communicationResult, knowledgeResult]
  · rw [hres]
    simp [evaluate_output, dictView, outputConfKeys, confContribution,
      trackingResult, communicationResult, knowledgeResult]
  · rw [hres]
    simp [evaluate_output, dictView, outputConfKeys, confContribution,
      trackingResult, communicationResult, knowledgeResult]

/-- Witness for C10: on a concrete run the tracking result is SUCCESS, the
results map holds exactly the three fixed keys, and the first stored entry
(discharging the membership hypothesis) has status SUCCESS. -/
theorem C10_all_success_witness :
    (resultOf (node_l2_tracking c4envFail (initState c10msg "sid"))
        "L2_TRACKING_001").map (fun r => r.status) = some "SUCCESS" ∧
    ((stateBeforeEvaluator c4envFail c10msg
        "sid").execution_results.map Prod.fst =
      ["L2_TRACKING_001", "L2_COMMUNICATION_001", "CROSS_KNOWLEDGE_001"]) ∧
    ("L2_TRACKING_001", trackingResult c4envFail c10msg.message).2.status =
      "SUCCESS" := by
  have h := C10_all_success c4envFail c10msg "sid"
  exact ⟨h.1 (initState c10msg "sid"), h.2.2.2.1,
    h.2.2.2.2.1 ("L2_TRACKING_001", trackingResult c4envFail c10msg.message)
      (by decide)⟩

end Nion
